import Mathlib

/-!
Shallow embedding of the skybot RAG chatbot orchestration core
(`app/services/chatbot.py`, `app/services/ingest.py`, `app/api/routes.py`,
`app/core/config.py`).

External collaborators (the FAISS similarity engine, the document loaders,
the text splitter, the embedding model, the Groq HTTP endpoint and the
filesystem) are modelled as oracles: function-valued records whose results
say what the external call would have returned, with `none` / dedicated
constructors standing for a raised exception.  Everything the repository's
own code does with those results is translated line by line from the
source.  Machine floats (similarity scores) are modelled as rationals;
the only operation the code performs on them is an order comparison.

String helpers (`strip`, `lower`, `os.path.basename`, `pathlib` name and
suffix) are implemented structurally on `List Char` so that every
definition evaluates inside the kernel.
-/

/-- Characters stripped by Python `str.strip()` (ASCII whitespace; the
model restricts Python's whitespace set to the characters relevant here). -/
def pyStrip (s : String) : String :=
  String.mk (((s.data.dropWhile Char.isWhitespace).reverse.dropWhile Char.isWhitespace).reverse)

/-- Python `str.lower()` (ASCII case folding, as used on file extensions). -/
def pyLower (s : String) : String := String.mk (s.data.map Char.toLower)

/-- Python `os.path.basename`: the part of the path after the last slash. -/
def pyBasename (s : String) : String :=
  String.mk ((s.data.reverse.takeWhile fun c => !(c == '/')).reverse)

/-- Python `pathlib.Path(s).name`: trailing slashes are ignored, then the
last path component is taken. -/
def pyPathName (s : String) : String :=
  String.mk (((s.data.reverse.dropWhile fun c => c == '/').takeWhile fun c => !(c == '/')).reverse)

/-- Python `pathlib.Path(name).suffix`: the substring from the last dot,
provided that dot is neither the first nor the last character. -/
def pySuffix (name : String) : String :=
  let cs := name.data
  let dotIdxs := ((List.enumFrom 0 cs).filter fun p => p.2 == '.').map Prod.fst
  match dotIdxs.getLast? with
  | none => ""
  | some i => if 0 < i ∧ i + 1 < cs.length then String.mk (cs.drop i) else ""

/-- Membership of `sub` as a contiguous run inside a character list. -/
def listContainsSub (sub : List Char) : List Char → Bool
  | [] => sub.isEmpty
  | c :: cs => sub.isPrefixOf (c :: cs) || listContainsSub sub cs

/-- Python `sub in s` on strings (contiguous substring test). -/
def strContainsB (s sub : String) : Bool := listContainsSub sub.data s.data

/-- Substring containment as a proposition: `sub` occurs contiguously in `s`. -/
def StrContains (s sub : String) : Prop := ∃ a b, s = a ++ sub ++ b

/-- Configuration snapshot (`app/core/config.py`).  Only the settings the
orchestration logic branches on are kept; similarity scores are rationals. -/
structure Config where
  RAG_MIN_SCORE : Rat
  MAX_HISTORY_LENGTH : Nat
  RAG_TOP_K : Nat

/-- Allowed upload extensions (`ALLOWED_EXTENSIONS` in `config.py`). -/
def ALLOWED_EXTENSIONS : List String := [".txt", ".pdf"]

/-- One conversation turn: a `(question, answer)` pair (`Turn` in `chatbot.py`). -/
abbrev Turn : Type := String × String

/-- A retrieved document chunk: its text plus the `source` metadata entry
(`None` when the metadata carries no source). -/
structure Document where
  page_content : String
  source : Option String

/-- Oracle for the FAISS vectorstore.  `none` results model a raised
exception; `docstoreSize` models whether `docstore._dict` introspection is
available and what `len` it reports. -/
structure VectorStore where
  scoredSearch : String → Nat → Option (List (Document × Rat))
  plainSearch : String → Nat → Option (List Document)
  docstoreSize : Option Nat

/-- Outcome of the HTTP POST performed by `_call_groq`: a timeout, a
response carrying a status code and (when the body parses into
`choices[0].message.content`) the extracted text, or any other
transport-level failure. -/
inductive HttpOutcome
  | timeout
  | response (statusCode : Nat) (extracted : Option String)
  | transportError

/-- Fixed fallback string for a Groq request timeout. -/
def timeoutMsg : String :=
  "⏳ La requête a pris trop de temps. Veuillez réessayer avec une question plus courte."

/-- Fixed fallback string for a Groq HTTP error status. -/
def apiErrorMsg (statusCode : Nat) : String :=
  "⚠️ Erreur API (" ++ toString statusCode ++ "). Veuillez réessayer."

/-- Fixed fallback string for any other failure while calling Groq. -/
def unexpectedErrorMsg : String :=
  "❌ Une erreur inattendue s\x27est produite. Veuillez réessayer."

/-- LLM client `_call_groq` (`chatbot.py`).  `requests.post` either times
out, returns a response, or fails with some other transport error;
`raise_for_status` raises exactly for status codes in `[400, 600)`; any
failure to extract `choices[0].message.content` is swallowed by the final
`except Exception` branch.  The function never raises. -/
def _call_groq (net : HttpOutcome) : String :=
  match net with
  | .timeout => timeoutMsg
  | .response statusCode extracted =>
    if 400 ≤ statusCode ∧ statusCode < 600 then apiErrorMsg statusCode
    else
      match extracted with
      | some text => text
      | none => unexpectedErrorMsg
  | .transportError => unexpectedErrorMsg

/-- Fixed instruction header of the prompt (`_build_prompt`), up to and
including the blank line that precedes the history block. -/
def promptInstructions : String :=
  "Tu es SkyBot, un assistant IA spécialisé dans l\x27analyse de documents.\n\nINSTRUCTIONS:\n1. Réponds UNIQUEMENT en te basant sur le CONTEXTE fourni ci-dessous.\n2. Si l\x27information est absente du contexte, réponds : \"Je ne trouve pas cette information dans le document.\"\n3. Sois précis, concis et factuel. Ne jamais inventer ou extrapoler.\n4. Cite tes sources quand c\x27est pertinent.\n5. Structure ta réponse clairement.\n\n"

/-- Source label of one passage: `" [Source: basename]"` when the chunk's
metadata has a truthy (non-empty) `source`, otherwise empty. -/
def passageSourceTag (doc : Document) : String :=
  match doc.source with
  | some s => if s = "" then "" else " [Source: " ++ pyBasename s ++ "]"
  | none => ""

/-- Rendering of one numbered context passage (`--- Extrait i ... ---`). -/
def passageText (i : Nat) (doc : Document) : String :=
  "--- Extrait " ++ toString i ++ passageSourceTag doc ++ " ---\n" ++ doc.page_content

/-- Rendering of one numbered history line pair (`Qi: ...\nAi: ...`). -/
def historyLineText (idx : Nat) (t : Turn) : String :=
  "Q" ++ toString idx ++ ": " ++ t.1 ++ "\nA" ++ toString idx ++ ": " ++ t.2

/-- Prompt assembler `_build_prompt` (`chatbot.py`), translated clause by
clause: passages are enumerated from 1 in retrieval order, the history
block is built from `history[-3:]` when history is non-empty, and the
final f-string places the history block between the instruction text and
the `CONTEXTE DOCUMENTAIRE:` section. -/
def _build_prompt (question : String) (context_docs : List Document) (history : List Turn) :
    String :=
  let passages := (List.enumFrom 1 context_docs).map fun p => passageText p.1 p.2
  let context_block := String.intercalate "\n\n" passages
  let history_block :=
    if history.isEmpty then ""
    else
      "HISTORIQUE RÉCENT:\n" ++
        String.intercalate "\n\n"
          ((List.enumFrom 1 (history.drop (history.length - 3))).map fun p =>
            historyLineText p.1 p.2) ++
        "\n\n"
  promptInstructions ++ history_block ++ "CONTEXTE DOCUMENTAIRE:\n" ++ context_block ++
    "\n\nQUESTION: " ++ question ++ "\n\nRÉPONSE (basée uniquement sur le contexte):"

/-- Modelled Python exception value: `ValueError(msg)` or any other
exception, with the message used by the HTTP layer's `f"{exc}"`. -/
inductive PyError
  | valueError (msg : String)
  | otherExn (msg : String)

/-- Message text of a modelled exception (Python `str(exc)`). -/
def PyError.message : PyError → String
  | .valueError m => m
  | .otherExn m => m

/-- Oracle for one ingestion run over a concrete file (`ingest.py`): what
the TXT / PDF loaders, the splitter, `FAISS.from_documents` and
`save_local` would do.  `none` models a raised exception. -/
structure FileEnv where
  path : String
  txtLoad : Option (List Document)
  pdfLoad : Option (List Document)
  split : List Document → List Document
  fromDocuments : List Document → Option VectorStore
  saveOk : Bool

/-- Loader dispatch `_load_file` (`ingest.py`).  `ext` is
`file_path.suffix.lower()` of the ingested path. -/
def _load_file (ext : String) (f : FileEnv) : Except PyError (List Document) :=
  if ext = ".txt" then
    match f.txtLoad with
    | some docs => .ok docs
    | none => .error (.otherExn ("text loader failed on " ++ f.path))
  else if ext = ".pdf" then
    match f.pdfLoad with
    | some docs => .ok docs
    | none => .error (.otherExn ("pdf loader failed on " ++ f.path))
  else .error (.valueError ("Unsupported file extension: \x27" ++ ext ++ "\x27"))

/-- Single-file ingestion `ingest_file` (`ingest.py`): load, reject empty
extraction, split, embed/build, optionally persist; any failure raises. -/
def ingest_file (ext : String) (f : FileEnv) (save_to_disk : Bool) :
    Except PyError VectorStore :=
  match _load_file ext f with
  | .error e => .error e
  | .ok docs =>
    if docs.isEmpty then
      .error (.valueError ("No content could be extracted from " ++ f.path))
    else
      let chunks := f.split docs
      match f.fromDocuments chunks with
      | none => .error (.otherExn ("embedding or FAISS index build failed for " ++ f.path))
      | some vs =>
        if save_to_disk && !f.saveOk then
          .error (.otherExn ("failed to persist FAISS index for " ++ f.path))
        else .ok vs

/-- Chatbot instance state: the fields of the `RAGChatbot` dataclass. -/
structure RAGChatbot where
  _vectorstore : Option VectorStore
  _history : List Turn

namespace RAGChatbot

/-- Readiness: a vectorstore is loaded (`RAGChatbot.is_ready`). -/
def is_ready (bot : RAGChatbot) : Bool := bot._vectorstore.isSome

/-- Not-ready fixed answer returned by `ask` when no vectorstore is loaded. -/
def notReadyMsg : String :=
  "⚠️ Aucun document n\x27a été importé. Veuillez importer un fichier via la zone d\x27upload."

/-- Fixed answer returned by `ask` when retrieval finds nothing. -/
def noRelevantMsg : String :=
  "🔍 Je n\x27ai pas trouvé d\x27informations pertinentes dans le document pour répondre à votre question."

/-- Retrieval `_retrieve` (`chatbot.py`): scored search, score floor
filter, and the fallback unfiltered search used both when the scored
search raises and when the filter discards everything.  The fallback call
sits outside the `try`, so its failure (outer `none`) propagates. -/
def _retrieve (cfg : Config) (vs : VectorStore) (question : String) (k : Nat) :
    Option (List Document) :=
  match vs.scoredSearch question k with
  | some pairs =>
    let docs := (pairs.filter fun p => decide (cfg.RAG_MIN_SCORE ≤ p.2)).map Prod.fst
    match docs with
    | [] => vs.plainSearch question k
    | d :: ds => some (d :: ds)
  | none => vs.plainSearch question k

/-- History append with trimming, `_add_to_history` (`chatbot.py`).  The
Python slice `history[-MAX_HISTORY_LENGTH:]` keeps the whole list when
`MAX_HISTORY_LENGTH` is `0` (since `-0 == 0`), which the model reproduces. -/
def _add_to_history (cfg : Config) (history : List Turn) (question answer : String) :
    List Turn :=
  let h := history ++ [(question, answer)]
  if cfg.MAX_HISTORY_LENGTH < h.length then
    if cfg.MAX_HISTORY_LENGTH = 0 then h else h.drop (h.length - cfg.MAX_HISTORY_LENGTH)
  else h

/-- Result of one `ask` call: the returned answer or a propagated
exception, the post-call instance state, and how many times `_call_groq`
and `_retrieve` ran. -/
structure AskTrace where
  answer : Option String
  state : RAGChatbot
  llmCalls : Nat
  retrievalCalls : Nat

/-- Question answering `ask` (`chatbot.py`), instrumented with call
counters.  `net` is the oracle telling what the Groq HTTP call would
return for a given prompt. -/
def ask (cfg : Config) (net : String → HttpOutcome) (bot : RAGChatbot)
    (question : String) (k : Nat) : AskTrace :=
  match bot._vectorstore with
  | none => { answer := some notReadyMsg, state := bot, llmCalls := 0, retrievalCalls := 0 }
  | some vs =>
    match _retrieve cfg vs question k with
    | none => { answer := none, state := bot, llmCalls := 0, retrievalCalls := 1 }
    | some [] =>
      { answer := some noRelevantMsg, state := bot, llmCalls := 0, retrievalCalls := 1 }
    | some (d :: ds) =>
      let prompt := _build_prompt question (d :: ds) bot._history
      let answer := _call_groq (net prompt)
      { answer := some answer
        state := { bot with _history := _add_to_history cfg bot._history question answer }
        llmCalls := 1
        retrievalCalls := 1 }

/-- History reset `clear_history` (`chatbot.py`). -/
def clear_history (bot : RAGChatbot) : RAGChatbot := { bot with _history := [] }

/-- Index replacement `rebuild_from_file` (`chatbot.py`): a single
assignment of the `ingest_file` result, so a raised ingestion error leaves
the instance untouched and propagates (returned as `some e`). -/
def rebuild_from_file (bot : RAGChatbot) (ext : String) (f : FileEnv)
    (save_to_disk : Bool) : RAGChatbot × Option PyError :=
  match ingest_file ext f save_to_disk with
  | .error e => (bot, some e)
  | .ok vs => ({ bot with _vectorstore := some vs }, none)

end RAGChatbot

/-- Minimal JSON value model for the HTTP layer's dictionaries. -/
inductive Json
  | str (s : String)
  | num (n : Nat)
  | bool (b : Bool)
  | null
  | obj (fields : List (String × Json))

/-- Field lookup in a JSON object (`none` on non-objects / missing keys). -/
def jsonLookup : Json → String → Option Json
  | .obj fields, key => (fields.find? fun p => p.1 == key).map Prod.snd
  | _, _ => none

/-- Vectorstore metadata `info` (`chatbot.py`): `no_document` when not
ready, otherwise `ready` with a best-effort fragment count (the spec's
`chunk_count`; `null` when `docstore._dict` introspection is unavailable,
every introspection failure being swallowed) and the embedding model name. -/
def RAGChatbot.info (bot : RAGChatbot) : Json :=
  match bot._vectorstore with
  | none => .obj [("status", .str "no_document")]
  | some vs =>
    .obj
      [("status", .str "ready"),
       ("fragment_count", match vs.docstoreSize with | some n => .num n | none => .null),
       ("embedding_model", .str "all-MiniLM-L6-v2")]

namespace Routes

/-- Result of one call to the upload route, instrumented with whether the
file got written and whether ingestion was attempted. -/
structure UploadTrace where
  status_code : Nat
  ok : Bool
  message : String
  fileSaved : Bool
  ingestCalled : Bool
  chatbot : RAGChatbot

/-- Upload route `upload_file` (`routes.py`): sanitize the client file
name, reject disallowed extensions with a 400 before saving, then save
(500 on `OSError`), then rebuild the index (500 with the exception text on
ingestion failure). -/
def upload_file (bot : RAGChatbot) (rawFilename : String) (save_index : Bool)
    (saveFileOk : Bool) (f : FileEnv) : UploadTrace :=
  let filename := pyPathName rawFilename
  let ext := pyLower (pySuffix filename)
  if ext ∈ ALLOWED_EXTENSIONS then
    if saveFileOk then
      match bot.rebuild_from_file ext f save_index with
      | (bot2, none) =>
        { status_code := 200, ok := true
          message := "✅ Fichier « " ++ filename ++ " » indexé avec succès."
          fileSaved := true, ingestCalled := true, chatbot := bot2 }
      | (bot2, some e) =>
        { status_code := 500, ok := false
          message := "Erreur d\x27indexation : " ++ e.message
          fileSaved := true, ingestCalled := true, chatbot := bot2 }
    else
      { status_code := 500, ok := false
        message := "Impossible de sauvegarder le fichier."
        fileSaved := false, ingestCalled := false, chatbot := bot }
  else
    { status_code := 400, ok := false
      message := "Extension non supportée : " ++ ext ++ ". Formats acceptés : .txt, .pdf"
      fileSaved := false, ingestCalled := false, chatbot := bot }

/-- Fixed warning returned by the ask route on an empty (stripped) question. -/
def emptyQuestionMsg : String := "⚠️ Veuillez saisir une question."

/-- Result of one call to the ask route: `none` when the underlying
`RAGChatbot.ask` raised (the exception escapes the route), otherwise the
negotiated response body `(isJson, answer, question)`. -/
structure AskRouteTrace where
  response : Option (Bool × String × String)
  chatbot : RAGChatbot
  llmCalls : Nat
  retrievalCalls : Nat

/-- Ask route (`routes.py` `ask`): strip the form question, short-circuit
the fixed warning when it is empty, otherwise delegate to
`RAGChatbot.ask` with the configured top-k; content negotiation keys on
`"application/json" in accept`. -/
def ask (cfg : Config) (net : String → HttpOutcome) (bot : RAGChatbot)
    (rawQuestion accept : String) : AskRouteTrace :=
  let question := pyStrip rawQuestion
  if question = "" then
    { response := some (strContainsB accept "application/json", emptyQuestionMsg, question)
      chatbot := bot, llmCalls := 0, retrievalCalls := 0 }
  else
    let t := bot.ask cfg net question cfg.RAG_TOP_K
    match t.answer with
    | none =>
      { response := none, chatbot := t.state
        llmCalls := t.llmCalls, retrievalCalls := t.retrievalCalls }
    | some answer =>
      { response := some (strContainsB accept "application/json", answer, question)
        chatbot := t.state, llmCalls := t.llmCalls, retrievalCalls := t.retrievalCalls }

/-- Status route (`routes.py` `status`). -/
def status (bot : RAGChatbot) : Json :=
  .obj [("status", .str "ok"), ("chatbot", bot.info)]

end Routes

/-- Passage list as §4.3 of the spec words it: passages numbered from a
starting index in retrieval order, each rendered like the code renders it. -/
def specPassages : Nat → List Document → List String
  | _, [] => []
  | n, d :: ds => passageText n d :: specPassages (n + 1) ds

/-- History lines as §4.3 of the spec words them: alternating
question/answer lines numbered from a starting index. -/
def specHistoryLines : Nat → List Turn → List String
  | _, [] => []
  | n, t :: ts => historyLineText n t :: specHistoryLines (n + 1) ts

/-- The last (at most) 3 history turns, most-recent last, expressed as the
spec words it: the most recent turns, in arrival order. -/
def specRecentTurns (history : List Turn) : List Turn := (history.reverse.take 3).reverse

/-- Recent-history block, omitted entirely when history is empty. -/
def specHistoryBlock (history : List Turn) : String :=
  if history.isEmpty then ""
  else
    "HISTORIQUE RÉCENT:\n" ++
      String.intercalate "\n\n" (specHistoryLines 1 (specRecentTurns history)) ++ "\n\n"

/-- Modelled from the spec: §4.3 states the final prompt is the fixed
instruction text followed by the context block, then the recent-history
block, then the new question — with each block rendered as the code
renders it.  Kept for comparison against `_build_prompt`. -/
def build_prompt_claim_order (question : String) (context_docs : List Document)
    (history : List Turn) : String :=
  promptInstructions ++ "CONTEXTE DOCUMENTAIRE:\n" ++
    String.intercalate "\n\n" (specPassages 1 context_docs) ++ "\n\n" ++
    specHistoryBlock history ++ "QUESTION: " ++ question ++
    "\n\nRÉPONSE (basée uniquement sur le contexte):"

/-- One externally observable operation against the shared chatbot
instance: an `ask` call (with its network oracle) or a history reset. -/
inductive ChatOp
  | askOp (net : String → HttpOutcome) (question : String) (k : Nat)
  | clearOp

/-- Effect of one operation on the chatbot instance. -/
def applyChatOp (cfg : Config) (bot : RAGChatbot) : ChatOp → RAGChatbot
  | .askOp net question k => (bot.ask cfg net question k).state
  | .clearOp => bot.clear_history

/-- A sequence of ask / clear_history operations, applied in order. -/
def runChat (cfg : Config) (bot : RAGChatbot) (ops : List ChatOp) : RAGChatbot :=
  ops.foldl (applyChatOp cfg) bot

/-- Concrete configuration: integral score floor, history bound 6 (the
shipped default), top-k 4. -/
def cfgA : Config := { RAG_MIN_SCORE := 1, MAX_HISTORY_LENGTH := 6, RAG_TOP_K := 4 }

/-- Concrete configuration with `MAX_HISTORY_LENGTH = 0`. -/
def cfgZero : Config := { RAG_MIN_SCORE := 0, MAX_HISTORY_LENGTH := 0, RAG_TOP_K := 4 }

/-- Concrete document chunk fixture. -/
def docParis : Document :=
  { page_content := "Paris is the capital of France.", source := some "uploads/doc.txt" }

/-- Vectorstore fixture whose scored search returns one chunk with score 2. -/
def vsOne : VectorStore :=
  { scoredSearch := fun _ _ => some [(docParis, 2)]
    plainSearch := fun _ _ => some [docParis]
    docstoreSize := some 1 }

/-- Vectorstore fixture whose searches both return the empty list. -/
def vsEmpty : VectorStore :=
  { scoredSearch := fun _ _ => some []
    plainSearch := fun _ _ => some []
    docstoreSize := some 0 }

/-- Vectorstore fixture whose searches both raise. -/
def vsBroken : VectorStore :=
  { scoredSearch := fun _ _ => none
    plainSearch := fun _ _ => none
    docstoreSize := none }

/-- Network oracle fixture: every request succeeds with a parsed body. -/
def netOk : String → HttpOutcome := fun _ => .response 200 (some "réponse du modèle")

/-- Chatbot fixtures in the NotReady and various Ready states. -/
def botNone : RAGChatbot := { _vectorstore := none, _history := [] }

/-- Ready chatbot over `vsOne`. -/
def botOne : RAGChatbot := { _vectorstore := some vsOne, _history := [] }

/-- Ready chatbot over `vsEmpty`. -/
def botEmpty : RAGChatbot := { _vectorstore := some vsEmpty, _history := [] }

/-- Ready chatbot over `vsBroken`. -/
def botBroken : RAGChatbot := { _vectorstore := some vsBroken, _history := [] }

/-- Ingestion oracle fixture: a loadable TXT file that builds `vsOne`. -/
def fileOkTxt : FileEnv :=
  { path := "uploads/doc.txt", txtLoad := some [docParis], pdfLoad := none
    split := fun ds => ds, fromDocuments := fun _ => some vsOne, saveOk := true }

/-- Ingestion oracle fixture: a TXT file whose loader raises. -/
def fileBroken : FileEnv :=
  { path := "uploads/bad.txt", txtLoad := none, pdfLoad := none
    split := fun ds => ds, fromDocuments := fun _ => none, saveOk := true }

/-- Six-turn history fixture, already at the shipped bound. -/
def hist6 : List Turn :=
  [("q1", "a1"), ("q2", "a2"), ("q3", "a3"), ("q4", "a4"), ("q5", "a5"), ("q6", "a6")]

theorem drop_length_sub_eq_reverse_take {α : Type} (l : List α) (n : Nat) :
    l.drop (l.length - n) = (l.reverse.take n).reverse := by
  have h := List.rtake_eq_reverse_take_reverse (l := l) (n := n)
  simpa [List.rtake] using h

/-- C1: `ask` on a NotReady instance returns the fixed not-ready message,
with no LLM call and no state (hence no history) change; on a Ready
instance whose retrieval returns the empty list it returns the fixed
no-relevant-information message, again with no LLM call and no state
change. -/
theorem ask_fixed_message_paths (cfg : Config) (net : String → HttpOutcome)
    (bot : RAGChatbot) (question : String) (k : Nat) :
    (bot._vectorstore = none →
      bot.ask cfg net question k =
        { answer := some RAGChatbot.notReadyMsg, state := bot
          llmCalls := 0, retrievalCalls := 0 }) ∧
    (∀ vs, bot._vectorstore = some vs →
      RAGChatbot._retrieve cfg vs question k = some [] →
      bot.ask cfg net question k =
        { answer := some RAGChatbot.noRelevantMsg, state := bot
          llmCalls := 0, retrievalCalls := 1 }) := by
  constructor
  · intro h
    simp [RAGChatbot.ask, h]
  · intro vs h hr
    simp [RAGChatbot.ask, h, hr]

theorem ask_fixed_message_paths_witness :
    RAGChatbot.ask cfgA netOk botNone "Quelle est la capitale ?" 4 =
      { answer := some RAGChatbot.notReadyMsg, state := botNone
        llmCalls := 0, retrievalCalls := 0 } ∧
    RAGChatbot.ask cfgA netOk botEmpty "Quelle est la capitale ?" 4 =
      { answer := some RAGChatbot.noRelevantMsg, state := botEmpty
        llmCalls := 0, retrievalCalls := 1 } :=
  ⟨(ask_fixed_message_paths cfgA netOk botNone "Quelle est la capitale ?" 4).1 rfl,
   (ask_fixed_message_paths cfgA netOk botEmpty "Quelle est la capitale ?" 4).2 vsEmpty rfl rfl⟩

/-- C3: `_retrieve` takes the unfiltered fallback search exactly when the
scored search raises or the score-floor filter (keeping scores `≥
RAG_MIN_SCORE`) discards all results, returning whatever the unfiltered
search yields (possibly empty); otherwise it returns the filtered scored
results in the engine's returned order. -/
theorem retrieve_fallback_characterisation (cfg : Config) (vs : VectorStore)
    (question : String) (k : Nat) :
    (vs.scoredSearch question k = none →
      RAGChatbot._retrieve cfg vs question k = vs.plainSearch question k) ∧
    (∀ pairs, vs.scoredSearch question k = some pairs →
      ((pairs.filter fun p => decide (cfg.RAG_MIN_SCORE ≤ p.2)).map Prod.fst = [] →
        RAGChatbot._retrieve cfg vs question k = vs.plainSearch question k) ∧
      (∀ d ds,
        (pairs.filter fun p => decide (cfg.RAG_MIN_SCORE ≤ p.2)).map Prod.fst = d :: ds →
        RAGChatbot._retrieve cfg vs question k = some (d :: ds))) := by
  refine ⟨fun h => by simp [RAGChatbot._retrieve, h],
    fun pairs h => ⟨fun hf => ?_, fun d ds hf => ?_⟩⟩
  · simp [RAGChatbot._retrieve, h, hf]
  · simp [RAGChatbot._retrieve, h, hf]

theorem retrieve_fallback_characterisation_witness :
    RAGChatbot._retrieve cfgA vsBroken "q" 4 = vsBroken.plainSearch "q" 4 ∧
    RAGChatbot._retrieve cfgA vsEmpty "q" 4 = vsEmpty.plainSearch "q" 4 ∧
    RAGChatbot._retrieve cfgA vsOne "q" 4 = some [docParis] :=
  ⟨(retrieve_fallback_characterisation cfgA vsBroken "q" 4).1 rfl,
   ((retrieve_fallback_characterisation cfgA vsEmpty "q" 4).2 [] rfl).1 rfl,
   ((retrieve_fallback_characterisation cfgA vsOne "q" 4).2 [(docParis, 2)] rfl).2
     docParis [] rfl⟩

/-- C10: the unfiltered fallback `similarity_search` call sits outside the
`try`/`except` in `_retrieve`, so when it raises — after the scored search
itself raised, or after the score filter discarded every result — the
exception propagates out of `ask` (no answer is produced, no fallback
message, no LLM call). -/
theorem ask_propagates_fallback_failure (cfg : Config) (net : String → HttpOutcome)
    (bot : RAGChatbot) (vs : VectorStore) (question : String) (k : Nat)
    (hvs : bot._vectorstore = some vs)
    (hplain : vs.plainSearch question k = none)
    (hscored : vs.scoredSearch question k = none ∨
      ∃ pairs, vs.scoredSearch question k = some pairs ∧
        (pairs.filter fun p => decide (cfg.RAG_MIN_SCORE ≤ p.2)).map Prod.fst = []) :
    (bot.ask cfg net question k).answer = none ∧
    (bot.ask cfg net question k).llmCalls = 0 ∧
    (bot.ask cfg net question k).state = bot := by
  have hr : RAGChatbot._retrieve cfg vs question k = none := by
    rcases hscored with h | ⟨pairs, h1, h2⟩
    · simp [RAGChatbot._retrieve, h, hplain]
    · simp [RAGChatbot._retrieve, h1, h2, hplain]
  refine ⟨?_, ?_, ?_⟩ <;> simp [RAGChatbot.ask, hvs, hr]

theorem ask_propagates_fallback_failure_witness :
    (RAGChatbot.ask cfgA netOk botBroken "q" 4).answer = none ∧
    (RAGChatbot.ask cfgA netOk botBroken "q" 4).llmCalls = 0 ∧
    (RAGChatbot.ask cfgA netOk botBroken "q" 4).state = botBroken :=
  ask_propagates_fallback_failure cfgA netOk botBroken vsBroken "q" 4 rfl rfl (Or.inl rfl)

theorem add_to_history_length_le (cfg : Config) (hpos : 1 ≤ cfg.MAX_HISTORY_LENGTH)
    (h : List Turn) (q a : String) (hh : h.length ≤ cfg.MAX_HISTORY_LENGTH) :
    (RAGChatbot._add_to_history cfg h q a).length ≤ cfg.MAX_HISTORY_LENGTH := by
  simp only [RAGChatbot._add_to_history, List.length_append, List.length_cons,
    List.length_nil]
  split
  · split
    · omega
    · simp only [List.length_drop, List.length_append, List.length_cons, List.length_nil]
      omega
  · simp only [List.length_append, List.length_cons, List.length_nil]
    omega

theorem ask_history_shape (cfg : Config) (net : String → HttpOutcome)
    (bot : RAGChatbot) (question : String) (k : Nat) :
    (bot.ask cfg net question k).state._history = bot._history ∨
    ∃ a, (bot.ask cfg net question k).state._history =
      RAGChatbot._add_to_history cfg bot._history question a := by
  rcases hv : bot._vectorstore with _ | vs
  · left; simp [RAGChatbot.ask, hv]
  · rcases hr : RAGChatbot._retrieve cfg vs question k with _ | (_ | ⟨d, ds⟩)
    · left; simp [RAGChatbot.ask, hv, hr]
    · left; simp [RAGChatbot.ask, hv, hr]
    · exact Or.inr ⟨_call_groq (net (_build_prompt question (d :: ds) bot._history)),
        by simp [RAGChatbot.ask, hv, hr]⟩

theorem runChat_history_le (cfg : Config) (hpos : 1 ≤ cfg.MAX_HISTORY_LENGTH) :
    ∀ ops bot, bot._history.length ≤ cfg.MAX_HISTORY_LENGTH →
      (runChat cfg bot ops)._history.length ≤ cfg.MAX_HISTORY_LENGTH := by
  intro ops
  induction ops with
  | nil => intro bot h; exact h
  | cons op ops ih =>
    intro bot h
    show (runChat cfg (applyChatOp cfg bot op) ops)._history.length ≤ cfg.MAX_HISTORY_LENGTH
    refine ih _ ?_
    cases op with
    | clearOp => simp [applyChatOp, RAGChatbot.clear_history]
    | askOp net question k =>
      rcases ask_history_shape cfg net bot question k with hs | ⟨a, hs⟩
      · simpa [applyChatOp, hs] using h
      · simp only [applyChatOp, hs]
        exact add_to_history_length_le cfg hpos bot._history question a h

/-- C2 (amended): provided the configured maximum history length is at
least 1, the history length never exceeds it after any sequence of ask /
clear_history operations starting from a fresh instance; an append within
the bound keeps arrival order, and an append beyond the bound retains
exactly the most recent `MAX_HISTORY_LENGTH` turns in arrival order with
the newly appended turn last.  (With `MAX_HISTORY_LENGTH = 0` the Python
slice `[-0:]` keeps everything, so the positivity proviso is needed.) -/
theorem history_bounded_fifo (cfg : Config) (hpos : 1 ≤ cfg.MAX_HISTORY_LENGTH) :
    (∀ v ops,
      (runChat cfg { _vectorstore := v, _history := [] } ops)._history.length ≤
        cfg.MAX_HISTORY_LENGTH) ∧
    (∀ h q a, h.length + 1 ≤ cfg.MAX_HISTORY_LENGTH →
      RAGChatbot._add_to_history cfg h q a = h ++ [(q, a)]) ∧
    (∀ h q a, cfg.MAX_HISTORY_LENGTH < h.length + 1 →
      RAGChatbot._add_to_history cfg h q a =
        ((h ++ [(q, a)]).reverse.take cfg.MAX_HISTORY_LENGTH).reverse ∧
      (RAGChatbot._add_to_history cfg h q a).getLast? = some (q, a)) := by
  refine ⟨fun v ops => runChat_history_le cfg hpos ops _ (by simp), ?_, ?_⟩
  · intro h q a hle
    simp only [RAGChatbot._add_to_history, List.length_append, List.length_cons,
      List.length_nil]
    rw [if_neg (by omega)]
  · intro h q a hgt
    have hcond : cfg.MAX_HISTORY_LENGTH < (h ++ [(q, a)]).length := by
      simp only [List.length_append, List.length_cons, List.length_nil]; omega
    have heq : RAGChatbot._add_to_history cfg h q a =
        ((h ++ [(q, a)]).reverse.take cfg.MAX_HISTORY_LENGTH).reverse := by
      simp only [RAGChatbot._add_to_history]
      rw [if_pos hcond, if_neg (by omega), drop_length_sub_eq_reverse_take]
    refine ⟨heq, ?_⟩
    rw [heq]
    obtain ⟨m, hm⟩ : ∃ m, cfg.MAX_HISTORY_LENGTH = m + 1 :=
      ⟨cfg.MAX_HISTORY_LENGTH - 1, by omega⟩
    rw [hm]
    simp

theorem history_bounded_fifo_witness :
    (runChat cfgA { _vectorstore := some vsOne, _history := [] }
      [ChatOp.askOp netOk "q0" 4, ChatOp.clearOp, ChatOp.askOp netOk "q1" 4])._history.length ≤
      cfgA.MAX_HISTORY_LENGTH ∧
    RAGChatbot._add_to_history cfgA hist6 "q7" "a7" =
      ((hist6 ++ [("q7", "a7")]).reverse.take cfgA.MAX_HISTORY_LENGTH).reverse ∧
    (RAGChatbot._add_to_history cfgA hist6 "q7" "a7").getLast? = some ("q7", "a7") :=
  ⟨(history_bounded_fifo cfgA (by decide)).1 (some vsOne)
      [ChatOp.askOp netOk "q0" 4, ChatOp.clearOp, ChatOp.askOp netOk "q1" 4],
   ((history_bounded_fifo cfgA (by decide)).2.2 hist6 "q7" "a7" (by decide)).1,
   ((history_bounded_fifo cfgA (by decide)).2.2 hist6 "q7" "a7" (by decide)).2⟩

/-- C2 counterexample: with `MAX_HISTORY_LENGTH` configured to `0`, a
single successful `ask` leaves the history at length 1, exceeding the
configured maximum — Python's `history[-0:]` slice keeps the whole list,
so no trimming ever happens at bound 0. -/
theorem history_bound_fails_at_zero :
    ¬ ((RAGChatbot.ask cfgZero netOk botOne "q" 4).state._history.length ≤
        cfgZero.MAX_HISTORY_LENGTH) := by
  decide

/-- C4: `rebuild_from_file` is a single assignment of the `ingest_file`
result, so any ingestion failure (unsupported extension, empty extraction,
embedding/indexing failure) leaves the previous vectorstore and readiness
untouched and propagates, while success wholesale-replaces the index and
leaves the instance Ready. -/
theorem rebuild_from_file_atomic (bot : RAGChatbot) (ext : String) (f : FileEnv)
    (save : Bool) :
    (∀ e, ingest_file ext f save = .error e →
      bot.rebuild_from_file ext f save = (bot, some e)) ∧
    (∀ vs, ingest_file ext f save = .ok vs →
      bot.rebuild_from_file ext f save =
        ({ _vectorstore := some vs, _history := bot._history }, none) ∧
      (bot.rebuild_from_file ext f save).1.is_ready = true) ∧
    (ext ≠ ".txt" → ext ≠ ".pdf" →
      bot.rebuild_from_file ext f save =
        (bot, some (.valueError ("Unsupported file extension: \x27" ++ ext ++ "\x27")))) ∧
    (ext = ".txt" → f.txtLoad = some [] →
      bot.rebuild_from_file ext f save =
        (bot, some (.valueError ("No content could be extracted from " ++ f.path)))) := by
  refine ⟨?_, ?_, ?_, ?_⟩
  · intro e he
    simp [RAGChatbot.rebuild_from_file, he]
  · intro vs hvs
    refine ⟨by simp [RAGChatbot.rebuild_from_file, hvs], ?_⟩
    simp [RAGChatbot.rebuild_from_file, hvs, RAGChatbot.is_ready]
  · intro h1 h2
    have he : ingest_file ext f save =
        .error (.valueError ("Unsupported file extension: \x27" ++ ext ++ "\x27")) := by
      simp [ingest_file, _load_file, h1, h2]
    simp [RAGChatbot.rebuild_from_file, he]
  · intro h1 h2
    have he : ingest_file ext f save =
        .error (.valueError ("No content could be extracted from " ++ f.path)) := by
      simp [ingest_file, _load_file, h1, h2]
    simp [RAGChatbot.rebuild_from_file, he]

theorem rebuild_from_file_atomic_witness :
    RAGChatbot.rebuild_from_file botOne ".txt" fileBroken false =
      (botOne, some (.otherExn ("text loader failed on " ++ "uploads/bad.txt"))) ∧
    RAGChatbot.rebuild_from_file botNone ".txt" fileOkTxt false =
      ({ _vectorstore := some vsOne, _history := [] }, none) ∧
    RAGChatbot.rebuild_from_file botOne ".docx" fileOkTxt false =
      (botOne, some (.valueError ("Unsupported file extension: \x27" ++ ".docx" ++ "\x27"))) :=
  ⟨(rebuild_from_file_atomic botOne ".txt" fileBroken false).1
      (.otherExn ("text loader failed on " ++ "uploads/bad.txt")) rfl,
   ((rebuild_from_file_atomic botNone ".txt" fileOkTxt false).2.1 vsOne rfl).1,
   (rebuild_from_file_atomic botOne ".docx" fileOkTxt false).2.2.1
      (by decide) (by decide)⟩

/-- C5 counterexample: `raise_for_status` only raises for status codes in
`[400, 600)`, so a non-2xx status below 400 (here 304) with a parseable
body is returned verbatim instead of producing the localized API-error
message the claim requires for every non-2xx response. -/
theorem call_groq_non2xx_cex :
    _call_groq (HttpOutcome.response 304 (some "corps en cache")) = "corps en cache" ∧
    _call_groq (HttpOutcome.response 304 (some "corps en cache")) ≠ apiErrorMsg 304 := by
  exact ⟨rfl, by decide⟩

/-- C5 (amended): `_call_groq` never raises; a request timeout yields the
fixed timeout message, a 4xx/5xx response yields the localized API-error
message with the status code, any other transport or body-parsing failure
yields the generic unexpected-error message, and otherwise the first
completion's extracted text is returned verbatim. -/
theorem call_groq_total_mapping (net : HttpOutcome) :
    (net = .timeout → _call_groq net = timeoutMsg) ∧
    (∀ c b, net = .response c b → 400 ≤ c → c < 600 → _call_groq net = apiErrorMsg c) ∧
    (∀ c t, net = .response c (some t) → ¬ (400 ≤ c ∧ c < 600) → _call_groq net = t) ∧
    (∀ c, net = .response c none → ¬ (400 ≤ c ∧ c < 600) →
      _call_groq net = unexpectedErrorMsg) ∧
    (net = .transportError → _call_groq net = unexpectedErrorMsg) := by
  refine ⟨fun h => by simp [_call_groq, h], ?_, ?_, ?_, fun h => by simp [_call_groq, h]⟩
  · intro c b h h4 h6
    simp [_call_groq, h, if_pos (And.intro h4 h6)]
  · intro c t h hno
    simp [_call_groq, h, if_neg hno]
  · intro c h hno
    simp [_call_groq, h, if_neg hno]

theorem call_groq_total_mapping_witness :
    _call_groq HttpOutcome.timeout = timeoutMsg ∧
    _call_groq (HttpOutcome.response 503 none) = apiErrorMsg 503 ∧
    _call_groq (HttpOutcome.response 200 (some "texte du modèle")) = "texte du modèle" ∧
    _call_groq (HttpOutcome.response 200 none) = unexpectedErrorMsg ∧
    _call_groq HttpOutcome.transportError = unexpectedErrorMsg :=
  ⟨(call_groq_total_mapping HttpOutcome.timeout).1 rfl,
   (call_groq_total_mapping (HttpOutcome.response 503 none)).2.1 503 none rfl
     (by decide) (by decide),
   (call_groq_total_mapping (HttpOutcome.response 200 (some "texte du modèle"))).2.2.1
     200 "texte du modèle" rfl (by decide),
   (call_groq_total_mapping (HttpOutcome.response 200 none)).2.2.2.1 200 rfl (by decide),
   (call_groq_total_mapping HttpOutcome.transportError).2.2.2.2 rfl⟩

theorem enumFrom_map_passageText (docs : List Document) :
    ∀ n, ((List.enumFrom n docs).map fun p => passageText p.1 p.2) = specPassages n docs := by
  induction docs with
  | nil => intro n; rfl
  | cons d ds ih =>
    intro n
    simp only [List.enumFrom, List.map_cons, specPassages]
    rw [ih]

theorem enumFrom_map_historyLineText (ts : List Turn) :
    ∀ n, ((List.enumFrom n ts).map fun p => historyLineText p.1 p.2) =
      specHistoryLines n ts := by
  induction ts with
  | nil => intro n; rfl
  | cons t ts ih =>
    intro n
    simp only [List.enumFrom, List.map_cons, specHistoryLines]
    rw [ih]

theorem string_append_empty (s : String) : s ++ "" = s := by
  cases s with
  | mk data =>
    show String.mk (data ++ []) = String.mk data
    rw [List.append_nil]

theorem build_prompt_eq_spec (question : String) (docs : List Document)
    (history : List Turn) :
    _build_prompt question docs history =
      promptInstructions ++ specHistoryBlock history ++ "CONTEXTE DOCUMENTAIRE:\n" ++
        String.intercalate "\n\n" (specPassages 1 docs) ++
        "\n\nQUESTION: " ++ question ++
        "\n\nRÉPONSE (basée uniquement sur le contexte):" := by
  simp only [_build_prompt]
  rw [drop_length_sub_eq_reverse_take, enumFrom_map_historyLineText,
    enumFrom_map_passageText]
  rfl

/-- C6 (amended): the assembled prompt is the fixed instruction text, then
the recent-history block — at most the last 3 turns, rendered as
alternating question/answer lines numbered from 1, most-recent last, and
omitted entirely when history is empty — then the context block, whose
passages are numbered from 1 in retrieval order and labeled with the
source file base name when the metadata provides one, then the new
question.  (The code places the history block before the context block,
not after it.) -/
theorem build_prompt_structure (question : String) (docs : List Document)
    (history : List Turn) :
    _build_prompt question docs history =
      promptInstructions ++ specHistoryBlock history ++ "CONTEXTE DOCUMENTAIRE:\n" ++
        String.intercalate "\n\n" (specPassages 1 docs) ++
        "\n\nQUESTION: " ++ question ++
        "\n\nRÉPONSE (basée uniquement sur le contexte):" ∧
    _build_prompt question docs [] =
      promptInstructions ++ "CONTEXTE DOCUMENTAIRE:\n" ++
        String.intercalate "\n\n" (specPassages 1 docs) ++
        "\n\nQUESTION: " ++ question ++
        "\n\nRÉPONSE (basée uniquement sur le contexte):" := by
  refine ⟨build_prompt_eq_spec question docs history, ?_⟩
  have h := build_prompt_eq_spec question docs []
  rw [h]
  show promptInstructions ++ "" ++ _ ++ _ ++ _ ++ _ ++ _ = _
  rw [string_append_empty]

set_option maxRecDepth 100000 in
/-- C6 counterexample: with one history turn, the text right after the
instruction block of the actual prompt is the history block, not the
context block, so the prompt differs from the layout the spec states
(instructions, context, history, question). -/
theorem build_prompt_order_cex :
    _build_prompt "Q?" [docParis] [("q0", "a0")] ≠
      build_prompt_claim_order "Q?" [docParis] [("q0", "a0")] ∧
    "HISTORIQUE RÉCENT:".data.isPrefixOf
      ((_build_prompt "Q?" [docParis] [("q0", "a0")]).data.drop
        promptInstructions.data.length) = true ∧
    "CONTEXTE DOCUMENTAIRE:".data.isPrefixOf
      ((_build_prompt "Q?" [docParis] [("q0", "a0")]).data.drop
        promptInstructions.data.length) = false := by
  refine ⟨by decide, by decide, by decide⟩

/-- C7: an upload whose sanitized file name has an extension outside
`{.txt, .pdf}` is answered with HTTP 400 and a message containing the
rejected extension, before the file is saved and before any ingestion
attempt, leaving the chatbot instance (hence its index) unchanged. -/
theorem upload_rejects_unsupported_extension (bot : RAGChatbot)
    (rawFilename : String) (save_index saveFileOk : Bool) (f : FileEnv)
    (h : pyLower (pySuffix (pyPathName rawFilename)) ∉ ALLOWED_EXTENSIONS) :
    (Routes.upload_file bot rawFilename save_index saveFileOk f).status_code = 400 ∧
    StrContains (Routes.upload_file bot rawFilename save_index saveFileOk f).message
      (pyLower (pySuffix (pyPathName rawFilename))) ∧
    (Routes.upload_file bot rawFilename save_index saveFileOk f).fileSaved = false ∧
    (Routes.upload_file bot rawFilename save_index saveFileOk f).ingestCalled = false ∧
    (Routes.upload_file bot rawFilename save_index saveFileOk f).chatbot = bot := by
  simp only [Routes.upload_file]
  rw [if_neg h]
  exact ⟨rfl,
    ⟨"Extension non supportée : ", ". Formats acceptés : .txt, .pdf", rfl⟩,
    rfl, rfl, rfl⟩

theorem upload_rejects_unsupported_extension_witness :
    pyLower (pySuffix (pyPathName "report.docx")) = ".docx" ∧
    (".docx" ∈ ALLOWED_EXTENSIONS → False) ∧
    (Routes.upload_file botOne "report.docx" false true fileOkTxt).status_code = 400 ∧
    StrContains (Routes.upload_file botOne "report.docx" false true fileOkTxt).message
      ".docx" ∧
    (Routes.upload_file botOne "report.docx" false true fileOkTxt).fileSaved = false ∧
    (Routes.upload_file botOne "report.docx" false true fileOkTxt).ingestCalled = false ∧
    (Routes.upload_file botOne "report.docx" false true fileOkTxt).chatbot = botOne := by
  have h := upload_rejects_unsupported_extension botOne "report.docx" false true
    fileOkTxt (by decide)
  exact ⟨by decide, by decide, h.1, h.2.1, h.2.2.1, h.2.2.2.1, h.2.2.2.2⟩

/-- C8: the status route returns an object with `status = "ok"` and a
`chatbot` object that reports the readiness state (`ready` /
`no_document`), the embedding model name when ready, and a best-effort
fragment count (the spec's `chunk_count`) that is `null` — without any
failure — when index introspection is unavailable. -/
theorem status_route_shape (bot : RAGChatbot) :
    jsonLookup (Routes.status bot) "status" = some (.str "ok") ∧
    jsonLookup (Routes.status bot) "chatbot" = some bot.info ∧
    jsonLookup bot.info "status" =
      some (.str (if bot.is_ready then "ready" else "no_document")) ∧
    (bot.is_ready = true →
      jsonLookup bot.info "embedding_model" = some (.str "all-MiniLM-L6-v2")) ∧
    (∀ vs, bot._vectorstore = some vs → vs.docstoreSize = none →
      jsonLookup bot.info "fragment_count" = some .null) ∧
    (∀ vs n, bot._vectorstore = some vs → vs.docstoreSize = some n →
      jsonLookup bot.info "fragment_count" = some (.num n)) := by
  rcases bot with ⟨v, hist⟩
  cases v with
  | none =>
    refine ⟨rfl, rfl, rfl, ?_, ?_, ?_⟩
    · intro h
      simp [RAGChatbot.is_ready] at h
    · intro vs hvs
      simp at hvs
    · intro vs n hvs
      simp at hvs
  | some vs =>
    refine ⟨rfl, rfl, rfl, fun _ => rfl, ?_, ?_⟩
    · intro vs2 hvs2 hds
      obtain rfl : vs2 = vs := by simpa using hvs2.symm
      simp [RAGChatbot.info, jsonLookup, hds]
    · intro vs2 n hvs2 hds
      obtain rfl : vs2 = vs := by simpa using hvs2.symm
      simp [RAGChatbot.info, jsonLookup, hds]

theorem status_route_shape_witness :
    jsonLookup (Routes.status botOne) "status" = some (.str "ok") ∧
    jsonLookup (Routes.status botOne) "chatbot" = some (RAGChatbot.info botOne) ∧
    jsonLookup (RAGChatbot.info botOne) "status" = some (.str "ready") ∧
    jsonLookup (RAGChatbot.info botOne) "embedding_model" =
      some (.str "all-MiniLM-L6-v2") ∧
    jsonLookup (RAGChatbot.info botOne) "fragment_count" = some (.num 1) ∧
    jsonLookup (RAGChatbot.info botBroken) "fragment_count" = some .null ∧
    jsonLookup (RAGChatbot.info botNone) "status" = some (.str "no_document") :=
  ⟨(status_route_shape botOne).1,
   (status_route_shape botOne).2.1,
   (status_route_shape botOne).2.2.1,
   (status_route_shape botOne).2.2.2.1 rfl,
   (status_route_shape botOne).2.2.2.2.2 vsOne 1 rfl rfl,
   (status_route_shape botBroken).2.2.2.2.1 vsBroken rfl rfl,
   (status_route_shape botNone).2.2.1⟩

/-- C9: a question that strips to the empty string is answered by the ask
route with the fixed warning message, with no retrieval, no LLM call and
no change to the chatbot instance (hence no history mutation). -/
theorem ask_route_blank_question (cfg : Config) (net : String → HttpOutcome)
    (bot : RAGChatbot) (rawQuestion accept : String)
    (h : pyStrip rawQuestion = "") :
    Routes.ask cfg net bot rawQuestion accept =
      { response := some (strContainsB accept "application/json",
          Routes.emptyQuestionMsg, "")
        chatbot := bot, llmCalls := 0, retrievalCalls := 0 } := by
  simp [Routes.ask, h]

theorem ask_route_blank_question_witness :
    pyStrip "  \t\n  " = "" ∧
    Routes.ask cfgA netOk botOne "  \t\n  " "application/json" =
      { response := some (true, Routes.emptyQuestionMsg, "")
        chatbot := botOne, llmCalls := 0, retrievalCalls := 0 } :=
  ⟨by decide,
   ask_route_blank_question cfgA netOk botOne "  \t\n  " "application/json" (by decide)⟩
